import Mathlib

/-!
Verification development for the Lumi-Con event pipeline:
a Pico matrix scanner feeding an ESP8266 gateway over a 4-byte framed
UART link, a press classifier with a short/long threshold, a reliable
relay client with retry/backoff, and a host listener plugin that
authenticates, deduplicates by per-device sequence number, and tracks
device liveness.

Each definition below is a shallow embedding of the corresponding
function in the repository sources (the integrated plugin
`_handleRequest` / `_getSecret` / `_tickStatusTimer` /
`_setDeviceConnected`, the ESP firmware `postEventToPlugin` /
`parseAckSeq` / `readPicoPacket` / `loop`, and the Pico `sendEvent`).
-/

/-! ### Host listener (integrated plugin, `_handleRequest`) -/

/-- Responses the `/event` handler can produce.  `ok200 s` models
`200 {ok:true, seq?}` where the `seq` field is present iff the request
carried an integer `seq`. -/
inductive HostResp where
  | ok200 (seq : Option Int)
  | badRequest400 (seq : Option Int)
  | unauthorized401
  | serverError500
deriving DecidableEq

/-- The fields of a `POST /event` request that the handler inspects.
`secretHeader` is the raw `X-Matrix-Secret` header when sent.
`event` and `seq` are `none` when the body field is missing or not an
integer (JS `Number.isInteger` coercion). `deviceId` is `""` when the
body field is missing or not a string. -/
structure EventReq where
  secretHeader : Option String
  event : Option Int
  seq : Option Int
  deviceId : String

/-- Whitespace as removed by JS `String.prototype.trim` (the common
ASCII subset; exotic Unicode whitespace does not occur in this
protocol's values). -/
def isJsSpace (c : Char) : Bool :=
  c == ' ' || c == '\t' || c == '\n' || c == '\r'

/-- JS `String.prototype.trim`: strip leading and trailing whitespace. -/
def jsTrim (s : String) : String :=
  String.mk (((s.data.dropWhile isJsSpace).reverse.dropWhile isJsSpace).reverse)

/-- `_getSecret`: the configured secret is read from settings and
trimmed; an all-whitespace setting therefore disables authentication. -/
def getSecret (settingsSecret : String) : String :=
  jsTrim settingsSecret

/-- The authentication gate at the top of `_handleRequest`: when a
secret is configured (nonempty after trim), the header value is
string-coerced, trimmed, and must be nonempty and equal to the
configured secret. -/
def authOk (settingsSecret : String) (hdr : Option String) : Bool :=
  let expectedSecret := getSecret settingsSecret
  if expectedSecret == "" then true
  else
    let headerValue := jsTrim (hdr.getD "")
    (!(headerValue == "")) && (headerValue == expectedSecret)

/-- `EVENT_MIN`/`EVENT_MAX` validation: the body's `event` field must be
an integer in `[0, 71]`. -/
def validEvent : Option Int → Bool
  | some e => decide (0 ≤ e) && decide (e ≤ 71)
  | none => false

/-- `this._lastSeqByDevice.get(deviceId) ?? 0`. -/
def lookupSeq (m : List (String × Int)) (d : String) : Int :=
  match m.find? (fun p => p.1 == d) with
  | some p => p.2
  | none => 0

/-- `Map.set`: replace the entry for the device or append a new one. -/
def setSeq (m : List (String × Int)) (d : String) (s : Int) : List (String × Int) :=
  match m with
  | [] => [(d, s)]
  | p :: rest => if p.1 == d then (d, s) :: rest else p :: setSeq rest d s

/-- The duplicate test: dedup applies only when `deviceId` is nonempty
and `seq` is an integer, and fires when `seq <= prev` with `prev`
defaulting to `0` on first contact. -/
def isDup (m : List (String × Int)) (r : EventReq) : Bool :=
  match r.seq with
  | some s => (!(r.deviceId == "")) && decide (s ≤ lookupSeq m r.deviceId)
  | none => false

/-- The dedup-map update performed after the alert has been emitted
(`if (deviceId && seq !== null) this._lastSeqByDevice.set(deviceId, seq)`). -/
def commitSeq (m : List (String × Int)) (r : EventReq) : List (String × Int) :=
  match r.seq with
  | some s => if r.deviceId == "" then m else setSeq m r.deviceId s
  | none => m

/-- Result of one `_handleRequest` run on `POST /event`: the response,
the dedup map afterwards, and whether the domain event
(`lumia.triggerAlert`) was emitted. -/
structure HandleResult where
  resp : HostResp
  map : List (String × Int)
  alertEmitted : Bool
deriving DecidableEq

/-- Shallow embedding of `_handleRequest` on the `POST /event` path.
Control flow follows the source: authentication first (401), then
event-number validation (400), then the dedup check (re-ack 200 without
re-emitting), then the processing effects (`setVariable` calls and
`triggerAlert`).  `procFails` injects an exception thrown by one of
those effects; the `catch` at the request boundary then answers 500
with the dedup map untouched, because `Map.set` runs only after
`triggerAlert` has completed. -/
def handleEvent (settingsSecret : String) (m : List (String × Int))
    (r : EventReq) (procFails : Bool) : HandleResult :=
  if !(authOk settingsSecret r.secretHeader) then ⟨.unauthorized401, m, false⟩
  else if !(validEvent r.event) then ⟨.badRequest400 r.seq, m, false⟩
  else if isDup m r then ⟨.ok200 r.seq, m, false⟩
  else if procFails then ⟨.serverError500, m, false⟩
  else ⟨.ok200 r.seq, commitSeq m r, true⟩

/-! ### Press classifier threshold (`LONG_PRESS_MS`) -/

/-- `constexpr uint32_t LONG_PRESS_MS = 600`. -/
def LONG_PRESS_MS : Nat := 600

/-- `bool isLong = held >= LONG_PRESS_MS`. -/
def classifyIsLong (heldMs : Nat) : Bool :=
  decide (LONG_PRESS_MS ≤ heldMs)

/-! ### Link framer (Pico `sendEvent`, ESP `readPicoPacket`) -/

/-- Pico `sendEvent`: one 4-byte frame
`[0xA5, type, key, 0xA5 xor type xor key]`. -/
def sendEvent (type key : Nat) : List Nat :=
  [0xA5, type, key, 0xA5 ^^^ type ^^^ key]

/-- The receiver's decoder state: `state` is the 4-state counter
(0 = awaiting sync), `b1`/`b2` hold the type and key bytes read so
far. -/
structure PicoDecState where
  state : Nat
  b1 : Nat
  b2 : Nat
deriving DecidableEq

/-- One byte through the `readPicoPacket` state machine. -/
def readPicoStep (d : PicoDecState) (b : Nat) : PicoDecState × Option (Nat × Nat) :=
  match d.state with
  | 0 => (if b == 0xA5 then { d with state := 1 } else d, none)
  | 1 => ({ d with state := 2, b1 := b }, none)
  | 2 => ({ d with state := 3, b2 := b }, none)
  | _ =>
    let chk := 0xA5 ^^^ d.b1 ^^^ d.b2
    ({ d with state := 0 }, if b == chk then some (d.b1, d.b2) else none)

/-- `readPicoPacket`: consume buffered bytes until a full, checksummed
frame decodes (returning its `(type, key)`) or the buffer is drained. -/
def readPicoPacket (d : PicoDecState) : List Nat → PicoDecState × Option (Nat × Nat)
  | [] => (d, none)
  | b :: rest =>
    match readPicoStep d b with
    | (d2, some tk) => (d2, some tk)
    | (d2, none) => readPicoPacket d2 rest

/-! ### Reliable relay client (ESP `parseAckSeq`, `postEventToPlugin`) -/

/-- Index of the first occurrence of `pat` at the head of the list. -/
def patAtHead : List Char → List Char → Bool
  | _, [] => true
  | [], _ :: _ => false
  | c :: cs, p :: ps => c == p && patAtHead cs ps

/-- `String.indexOf(pat)`: index of the first occurrence of the
pattern, or `none`. -/
def idxOfSub (pat : List Char) : List Char → Option Nat
  | [] => if pat.isEmpty then some 0 else none
  | c :: rest =>
    if patAtHead (c :: rest) pat then some 0
    else (idxOfSub pat rest).map (· + 1)

/-- Index of the first occurrence of a character, or `none`. -/
def idxOfChar (ch : Char) : List Char → Option Nat
  | [] => none
  | c :: rest => if c == ch then some 0 else (idxOfChar ch rest).map (· + 1)

/-- `String.indexOf(ch, start)`: first occurrence at index `>= start`. -/
def idxOfCharFrom (l : List Char) (ch : Char) (start : Nat) : Option Nat :=
  (idxOfChar ch (l.drop start)).map (· + start)

/-- Value of a decimal digit string. -/
def digitsVal (l : List Char) : Nat :=
  l.foldl (fun acc c => acc * 10 + (c.toNat - 48)) 0

/-- ESP `parseAckSeq`: find `"seq"` in the response body, then the next
`:`, skip spaces and tabs, read a maximal digit run; fail if empty,
else the value (cast to `uint32`, modelled as `% 2^32`). -/
def parseAckSeq (body : List Char) : Option Nat :=
  match idxOfSub ['"', 's', 'e', 'q', '"'] body with
  | none => none
  | some i =>
    match idxOfCharFrom body ':' i with
    | none => none
    | some colon =>
      let rest := (body.drop (colon + 1)).dropWhile (fun c => c == ' ' || c == '\t')
      let num := rest.takeWhile Char.isDigit
      if num.isEmpty then none
      else some (digitsVal num % 2 ^ 32)

/-- `enum ReliabilityMode { MODE_LEGACY, MODE_CONFIRMED }`. -/
inductive ReliabilityMode where
  | legacy
  | confirmed
deriving DecidableEq

/-- Environment outcome of one HTTP delivery attempt: a transport-level
failure (`http.begin` failure, cannot connect, timeout) or an HTTP
response with a status code and body. -/
inductive AttemptResult where
  | transportFail
  | response (code : Nat) (body : List Char)

/-- `http.setTimeout(1200)`: the fixed per-attempt HTTP timeout. -/
def HTTP_TIMEOUT_MS : Nat := 1200

/-- The success rule applied to one attempt in `postEventToPlugin`:
a 2xx code is required; in Legacy mode it suffices, in Confirmed mode
the body must additionally parse a `seq` equal to the message's. -/
def attemptSucceeds (mode : ReliabilityMode) (seq : Nat) : AttemptResult → Bool
  | .transportFail => false
  | .response code body =>
    if 200 ≤ code ∧ code < 300 then
      match mode with
      | .legacy => true
      | .confirmed =>
        match parseAckSeq body with
        | some ack => ack == seq
        | none => false
    else false

/-- The retry loop of `postEventToPlugin`: `left` attempts remain,
`made` were already made (all failed), `backoff` is the current delay.
`env k` is the outcome of the `k`-th attempt.  Returns (success,
attempts made, list of backoff delays slept); a failed attempt sleeps
the current backoff and doubles it — including after the final
attempt, as in the source loop. -/
def relayGo (mode : ReliabilityMode) (seq : Nat) (env : Nat → AttemptResult) :
    Nat → Nat → Nat → Bool × Nat × List Nat
  | 0, made, _ => (false, made, [])
  | left + 1, made, backoff =>
    if attemptSucceeds mode seq (env (made + 1)) then (true, made + 1, [])
    else
      let r := relayGo mode seq env left (made + 1) (backoff * 2)
      (r.1, r.2.1, backoff :: r.2.2)

/-- `postEventToPlugin`: up to 3 attempts, initial backoff 200 ms. -/
def postEventToPlugin (mode : ReliabilityMode) (seq : Nat)
    (env : Nat → AttemptResult) : Bool × Nat × List Nat :=
  relayGo mode seq env 3 0 200

/-! ### Gateway press classifier (ESP `loop`) -/

/-- Gateway-side mutable state touched by the key-handling part of the
ESP `loop`: the per-key press sessions and the relay bookkeeping
globals. -/
structure GwState where
  isDown : Nat → Bool
  pressStart : Nat → Nat
  seqCounter : Nat
  lastSeqSent : Nat
  lastAckSeq : Nat
  lastPostOk : Bool

/-- A classified press handed to the relay (key, held duration,
classification, mapped event number, sequence number, delivery
result). -/
structure PressOutcome where
  key : Nat
  heldMs : Nat
  isLong : Bool
  eventNumber : Nat
  seq : Nat
  delivered : Bool
deriving DecidableEq

/-- The key-event handling of the ESP `loop` for one decoded frame
`(type, key)` at time `now`: drop keys `>= 36`; a Press opens a session
only if none is open; a Release with an open session computes `heldMs`,
classifies, increments `seqCounter`, posts the event (with the attempt
outcomes drawn from `env`), and records the delivery result — a
Release with no open session does nothing. -/
def gwStep (mode : ReliabilityMode) (env : Nat → AttemptResult)
    (now : Nat) (type key : Nat) (st : GwState) : GwState × Option PressOutcome :=
  if 36 ≤ key then (st, none)
  else if type == 1 then
    if st.isDown key then (st, none)
    else
      ({ st with
          isDown := fun k => if k == key then true else st.isDown k,
          pressStart := fun k => if k == key then now else st.pressStart k }, none)
  else
    if st.isDown key then
      let held := now - st.pressStart key
      let long := classifyIsLong held
      let eventOut := if long then key + 36 else key
      let seq := st.seqCounter + 1
      let ok := (postEventToPlugin mode seq env).1
      ({ st with
          isDown := fun k => if k == key then false else st.isDown k,
          seqCounter := seq,
          lastSeqSent := seq,
          lastAckSeq := if ok then seq else st.lastAckSeq,
          lastPostOk := ok },
       some ⟨key, held, long, eventOut, seq, ok⟩)
    else (st, none)

/-! ### Host liveness tracking (`_setDeviceConnected`, `_tickStatusTimer`) -/

/-- Host-side connectivity state for the device. -/
structure ConnState where
  deviceConnected : Bool
  lastSeenMs : Nat
deriving DecidableEq

/-- `_getOfflineTimeoutMs`: configurable offline timeout in seconds,
default 30, floor 5 (a setting below 5 falls back to 30). -/
def getOfflineTimeoutMs (offlineTimeoutSec : Option Int) : Nat :=
  match offlineTimeoutSec with
  | some sec => if 5 ≤ sec then (sec * 1000).toNat else 30000
  | none => 30000

/-- `_setDeviceConnected`: a no-op when the flag already has the
requested value; otherwise flip it and emit one connectivity-changed
notification (the returned Bool). -/
def setDeviceConnected (c : ConnState) (isConnected : Bool) : ConnState × Bool :=
  if c.deviceConnected == isConnected then (c, false)
  else ({ c with deviceConnected := isConnected }, true)

/-- `_tickStatusTimer` (the demotion part): if currently connected,
seen at least once, and `now - lastSeenAt` exceeds the offline timeout,
demote via `setDeviceConnected`. -/
def tickStatusTimer (offlineMs : Nat) (nowMs : Nat) (c : ConnState) : ConnState × Bool :=
  if c.deviceConnected && (c.lastSeenMs != 0) && decide (offlineMs < nowMs - c.lastSeenMs) then
    setDeviceConnected c false
  else (c, false)

/-- Run the periodic liveness check at each time in the list, counting
emitted connectivity-changed notifications. -/
def runTicks (offlineMs : Nat) (c : ConnState) : List Nat → ConnState × Nat
  | [] => (c, 0)
  | t :: ts =>
    let r := tickStatusTimer offlineMs t c
    let rest := runTicks offlineMs r.1 ts
    (rest.1, (if r.2 then 1 else 0) + rest.2)

/-! ### Basic lemmas about the dedup map -/

theorem lookupSeq_setSeq (m : List (String × Int)) (d : String) (s : Int) :
    lookupSeq (setSeq m d s) d = s := by
  induction m with
  | nil => simp [setSeq, lookupSeq, List.find?]
  | cons p rest ih =>
    by_cases h : p.1 = d
    · simp [setSeq, h, lookupSeq, List.find?]
    · have hb : (p.1 == d) = false := by simp [h]
      simp only [setSeq, hb, if_false]
      simpa [lookupSeq, List.find?, hb] using ih

/-! ### Lemmas about the relay retry loop and liveness ticks -/

theorem relay_all_fail (mode : ReliabilityMode) (seq : Nat) (env : Nat → AttemptResult)
    (h1 : attemptSucceeds mode seq (env 1) = false)
    (h2 : attemptSucceeds mode seq (env 2) = false)
    (h3 : attemptSucceeds mode seq (env 3) = false) :
    postEventToPlugin mode seq env = (false, 3, [200, 400, 800]) := by
  simp [postEventToPlugin, relayGo, h1, h2, h3]

theorem relay_made_le_three (mode : ReliabilityMode) (seq : Nat)
    (env : Nat → AttemptResult) : (postEventToPlugin mode seq env).2.1 ≤ 3 := by
  simp only [postEventToPlugin, relayGo]
  split
  · simp
  · split
    · simp
    · split <;> simp

theorem runTicks_disconnected (offlineMs t0 : Nat) (ts : List Nat) :
    runTicks offlineMs ⟨false, t0⟩ ts = (⟨false, t0⟩, 0) := by
  induction ts with
  | nil => rfl
  | cons t ts ih => simp [runTicks, tickStatusTimer, ih]

/-! ### Claim theorems: host dedup -/

/-- C5: the classifier assigns Long iff `heldMs >= 600`; in particular
599 ms is Short and 600 ms is Long. -/
theorem classify_long_threshold_C5 :
    (∀ heldMs : Nat, classifyIsLong heldMs = true ↔ 600 ≤ heldMs) ∧
    classifyIsLong 599 = false ∧ classifyIsLong 600 = true := by
  refine ⟨fun h => ?_, by decide, by decide⟩
  simp [classifyIsLong, LONG_PRESS_MS]

/-- C1: on an authenticated request with a valid event number, a
nonempty `deviceId` and an integer `seq`: if `seq <= lastProcessedSeq`
(default 0) the host re-acks `200 {ok:true, seq}` without emitting the
domain event and leaves the map unchanged; otherwise it processes,
emits the event and sets `lastProcessedSeq[deviceId] = seq`.  In
particular `seq = 7` followed by `seq = 6` from the same device treats
the second as a duplicate. -/
theorem host_dedup_C1 :
    (∀ (secret : String) (m : List (String × Int)) (r : EventReq) (s : Int),
      authOk secret r.secretHeader = true →
      validEvent r.event = true →
      r.deviceId ≠ "" →
      r.seq = some s →
      ((s ≤ lookupSeq m r.deviceId →
          handleEvent secret m r false = ⟨.ok200 (some s), m, false⟩) ∧
       (lookupSeq m r.deviceId < s →
          handleEvent secret m r false =
            ⟨.ok200 (some s), setSeq m r.deviceId s, true⟩ ∧
          lookupSeq (handleEvent secret m r false).map r.deviceId = s))) ∧
    (∀ (secret : String) (m : List (String × Int)) (r7 r6 : EventReq),
      authOk secret r7.secretHeader = true →
      authOk secret r6.secretHeader = true →
      validEvent r7.event = true →
      validEvent r6.event = true →
      r7.deviceId ≠ "" →
      r6.deviceId = r7.deviceId →
      r7.seq = some 7 →
      r6.seq = some 6 →
      lookupSeq m r7.deviceId < 7 →
      (handleEvent secret m r7 false).alertEmitted = true ∧
      handleEvent secret (handleEvent secret m r7 false).map r6 false =
        ⟨.ok200 (some 6), (handleEvent secret m r7 false).map, false⟩) := by
  have hdup : ∀ (secret : String) (m : List (String × Int)) (r : EventReq) (s : Int),
      authOk secret r.secretHeader = true → validEvent r.event = true →
      r.deviceId ≠ "" → r.seq = some s → s ≤ lookupSeq m r.deviceId →
      handleEvent secret m r false = ⟨.ok200 (some s), m, false⟩ := by
    intro secret m r s ha hv hd hs hle
    have hdb : (r.deviceId == "") = false := by simp [hd]
    simp [handleEvent, ha, hv, isDup, hs, hdb, hle]
  have hproc : ∀ (secret : String) (m : List (String × Int)) (r : EventReq) (s : Int),
      authOk secret r.secretHeader = true → validEvent r.event = true →
      r.deviceId ≠ "" → r.seq = some s → lookupSeq m r.deviceId < s →
      handleEvent secret m r false =
        ⟨.ok200 (some s), setSeq m r.deviceId s, true⟩ := by
    intro secret m r s ha hv hd hs hlt
    have hdb : (r.deviceId == "") = false := by simp [hd]
    have hnle : ¬ (s ≤ lookupSeq m r.deviceId) := not_le.mpr hlt
    simp [handleEvent, ha, hv, isDup, hs, hdb, hnle, commitSeq]
  refine ⟨fun secret m r s ha hv hd hs => ⟨hdup secret m r s ha hv hd hs, ?_⟩,
          fun secret m r7 r6 ha7 ha6 hv7 hv6 hd7 hdev hs7 hs6 hlt => ?_⟩
  · intro hlt
    refine ⟨hproc secret m r s ha hv hd hs hlt, ?_⟩
    rw [hproc secret m r s ha hv hd hs hlt]
    exact lookupSeq_setSeq m r.deviceId s
  · have h7 := hproc secret m r7 7 ha7 hv7 hd7 hs7 hlt
    have hmap : (handleEvent secret m r7 false).map = setSeq m r7.deviceId 7 := by
      rw [h7]
    refine ⟨by rw [h7], ?_⟩
    have hlook : lookupSeq (handleEvent secret m r7 false).map r6.deviceId = 7 := by
      rw [hmap, hdev]; exact lookupSeq_setSeq m r7.deviceId 7
    have hle6 : (6 : Int) ≤ lookupSeq (handleEvent secret m r7 false).map r6.deviceId := by
      rw [hlook]; norm_num
    have hd6 : r6.deviceId ≠ "" := by rw [hdev]; exact hd7
    exact hdup secret (handleEvent secret m r7 false).map r6 6 ha6 hv6 hd6 hs6 hle6

/-- C1 witness: device `"D"` on an empty map, seq 7 processed, then
seq 6 treated as a duplicate. -/
theorem host_dedup_C1_witness :
    (handleEvent "" [] ⟨none, some 3, some 7, "D"⟩ false).alertEmitted = true ∧
    handleEvent "" (handleEvent "" [] ⟨none, some 3, some 7, "D"⟩ false).map
        ⟨none, some 3, some 6, "D"⟩ false =
      ⟨.ok200 (some 6), (handleEvent "" [] ⟨none, some 3, some 7, "D"⟩ false).map, false⟩ :=
  host_dedup_C1.2 "" [] ⟨none, some 3, some 7, "D"⟩ ⟨none, some 3, some 6, "D"⟩
    (by decide) (by decide) (by decide) (by decide) (by decide) rfl rfl rfl (by decide)

/-- C10: an authenticated, valid request carrying a nonempty `deviceId`
and `seq = 0` always takes the duplicate path (for any dedup-map state
with a nonnegative stored value for that device, including first
contact where the entry is absent and defaults to 0): the host answers
`200 {ok:true, seq:0}`, emits no domain event, and leaves the map
unchanged, regardless of whether the processing effects would have
thrown. -/
theorem host_seq_zero_dropped_C10 :
    ∀ (secret : String) (m : List (String × Int)) (r : EventReq),
      authOk secret r.secretHeader = true →
      validEvent r.event = true →
      r.deviceId ≠ "" →
      r.seq = some 0 →
      0 ≤ lookupSeq m r.deviceId →
      ∀ procFails : Bool,
        handleEvent secret m r procFails = ⟨.ok200 (some 0), m, false⟩ := by
  intro secret m r ha hv hd hs hnn procFails
  have hdb : (r.deviceId == "") = false := by simp [hd]
  simp [handleEvent, ha, hv, isDup, hs, hdb, hnn]

/-- C10 witness: very first contact (empty map), seq 0, with the
error-injection flag set: still the duplicate path. -/
theorem host_seq_zero_dropped_C10_witness :
    handleEvent "" [] ⟨none, some 5, some 0, "D"⟩ true =
      ⟨.ok200 (some 0), [], false⟩ :=
  host_seq_zero_dropped_C10 "" [] ⟨none, some 5, some 0, "D"⟩
    (by decide) (by decide) (by decide) rfl (by decide) true

/-- C9: if an internal error is thrown while processing an otherwise
valid, non-duplicate message, the handler answers 500 and the dedup map
is not advanced; and in every run of the handler the dedup map changes
only when the domain event was emitted (acknowledge-after-commit). -/
theorem host_error_no_commit_C9 :
    (∀ (secret : String) (m : List (String × Int)) (r : EventReq),
      authOk secret r.secretHeader = true →
      validEvent r.event = true →
      isDup m r = false →
      handleEvent secret m r true = ⟨.serverError500, m, false⟩) ∧
    (∀ (secret : String) (m : List (String × Int)) (r : EventReq) (procFails : Bool),
      (handleEvent secret m r procFails).map ≠ m →
      (handleEvent secret m r procFails).alertEmitted = true) := by
  constructor
  · intro secret m r ha hv hnd
    simp [handleEvent, ha, hv, hnd]
  · intro secret m r procFails hne
    cases ha : authOk secret r.secretHeader
    · simp [handleEvent, ha] at hne
    · cases hv : validEvent r.event
      · simp [handleEvent, ha, hv] at hne
      · cases hd : isDup m r
        · cases hp : procFails
          · simp [handleEvent, ha, hv, hd]
          · rw [hp] at hne
            simp [handleEvent, ha, hv, hd] at hne
        · simp [handleEvent, ha, hv, hd] at hne

/-- C9 witness: fresh device, valid event, injected processing error:
500 and an unchanged (empty) dedup map. -/
theorem host_error_no_commit_C9_witness :
    handleEvent "" [] ⟨none, some 3, some 1, "D"⟩ true =
      ⟨.serverError500, [], false⟩ :=
  host_error_no_commit_C9.1 "" [] ⟨none, some 3, some 1, "D"⟩
    (by decide) (by decide) (by decide)

/-- C6 counterexample: the claim says the header value must match the
configured secret exactly, with no normalization of either value, or
the request is rejected with 401.  With configured secret `"abc"` and
header value `" abc"` (leading space, so not an exact match) the
handler trims the header and accepts the request: the response is not
401. -/
theorem host_auth_exact_C6_counterexample :
    (" abc" : String) ≠ "abc" ∧
    (handleEvent "abc" [] ⟨some " abc", some 3, some 1, "D"⟩ false).resp ≠
      HostResp.unauthorized401 ∧
    (handleEvent "abc" [] ⟨some " abc", some 3, some 1, "D"⟩ false).alertEmitted = true := by
  refine ⟨by decide, ?_, ?_⟩ <;> decide

/-- C6 (amended): when a secret is configured (nonempty after trimming),
a request is rejected with 401 — before any dedup or processing logic,
leaving the map unchanged and emitting no event — unless the header
value, after trimming leading/trailing whitespace on both sides, equals
the configured secret; the comparison is otherwise exact and
case-sensitive, so secret `"abc"` rejects header value `"ABC"`. -/
theorem host_auth_exact_C6 :
    ∀ (secret : String) (m : List (String × Int)) (r : EventReq) (procFails : Bool),
      getSecret secret ≠ "" →
      jsTrim (r.secretHeader.getD "") ≠ getSecret secret →
      handleEvent secret m r procFails = ⟨.unauthorized401, m, false⟩ := by
  intro secret m r procFails hcfg hne
  have hauth : authOk secret r.secretHeader = false := by
    have h1 : (getSecret secret == "") = false := by simp [hcfg]
    have h2 : (jsTrim (r.secretHeader.getD "") == getSecret secret) = false := by
      simp [hne]
    simp [authOk, h1, h2]
  simp [handleEvent, hauth]

/-- C6 witness: secret `"abc"`, header `"ABC"` (wrong case): 401 with
no dedup or processing. -/
theorem host_auth_exact_C6_witness :
    handleEvent "abc" [("D", 3)] ⟨some "ABC", some 3, some 4, "D"⟩ false =
      ⟨.unauthorized401, [("D", 3)], false⟩ :=
  host_auth_exact_C6 "abc" [("D", 3)] ⟨some "ABC", some 3, some 4, "D"⟩ false
    (by decide) (by decide)

/-- C4: encoding a frame as `[0xA5, type, key, 0xA5 xor type xor key]`
and feeding exactly those 4 bytes to the receiver's 4-state decoder
(started in the awaiting-sync state) yields the original `(type, key)`
pair, for every `type` in `{0,1}` and `key` in `[0,35]`. -/
theorem frame_roundtrip_C4 :
    ∀ type key : Nat, type < 2 → key ≤ 35 →
      readPicoPacket ⟨0, 0, 0⟩ (sendEvent type key) =
        (⟨0, type, key⟩, some (type, key)) := by
  intro t k ht hk
  simp [sendEvent, readPicoPacket, readPicoStep]

/-- C4 witness: a Press of key 35 round-trips. -/
theorem frame_roundtrip_C4_witness :
    readPicoPacket ⟨0, 0, 0⟩ (sendEvent 1 35) = (⟨0, 1, 35⟩, some (1, 35)) :=
  frame_roundtrip_C4 1 35 (by decide) (by decide)

/-- C2: in Confirmed mode a 2xx attempt succeeds iff the response body
parses an integer `seq` equal to the sent message's `seq`; and if every
attempt yields a 2xx response whose body lacks that `seq` (missing or
different, e.g. 41 when 40 was sent), the client retries until the
3-attempt budget is exhausted, sleeping the 200/400/800 ms backoffs,
and reports failure. -/
theorem confirmed_ack_required_C2 :
    (∀ (code : Nat) (body : List Char) (seq : Nat),
      200 ≤ code → code < 300 →
      (attemptSucceeds .confirmed seq (.response code body) = true ↔
        parseAckSeq body = some seq)) ∧
    (∀ (seq : Nat) (env : Nat → AttemptResult),
      (∀ k, 1 ≤ k → k ≤ 3 → ∃ code body, env k = .response code body ∧
        200 ≤ code ∧ code < 300 ∧ parseAckSeq body ≠ some seq) →
      postEventToPlugin .confirmed seq env = (false, 3, [200, 400, 800])) := by
  have hiff : ∀ (code : Nat) (body : List Char) (seq : Nat),
      200 ≤ code → code < 300 →
      (attemptSucceeds .confirmed seq (.response code body) = true ↔
        parseAckSeq body = some seq) := by
    intro code body seq hc1 hc2
    cases hp : parseAckSeq body with
    | none => simp [attemptSucceeds, hp, hc1, hc2]
    | some a => simp [attemptSucceeds, hp, hc1, hc2]
  refine ⟨hiff, fun seq env hall => ?_⟩
  have hf : ∀ k, 1 ≤ k → k ≤ 3 → attemptSucceeds .confirmed seq (env k) = false := by
    intro k hk1 hk3
    obtain ⟨code, body, he, hc1, hc2, hp⟩ := hall k hk1 hk3
    rw [he]
    cases hs : attemptSucceeds .confirmed seq (.response code body) with
    | false => rfl
    | true => exact absurd ((hiff code body seq hc1 hc2).mp hs) hp
  exact relay_all_fail .confirmed seq env (hf 1 (by decide) (by decide))
    (hf 2 (by decide) (by decide)) (hf 3 (by decide) (by decide))

/-- C2 witness: every attempt answers `200 {ok:true, seq:41}` while 40
was sent: three failed attempts, backoffs 200/400/800 ms, no success. -/
theorem confirmed_ack_required_C2_witness :
    postEventToPlugin .confirmed 40
        (fun _ => .response 200 ("\x7b\"ok\":true,\"seq\":41\x7d".data)) =
      (false, 3, [200, 400, 800]) :=
  confirmed_ack_required_C2.2 40 _
    (fun _ _ _ => ⟨200, ("\x7b\"ok\":true,\"seq\":41\x7d".data), rfl,
      by decide, by decide, by decide⟩)

/-- C3: the relay client makes at most 3 delivery attempts per outcome,
with a fixed per-attempt HTTP timeout of 1200 ms; a failed attempt
(transport failure or rejection by the mode's success rule alike)
sleeps the current backoff, which starts at 200 ms and doubles, so
three failures sleep 200, 400 and 800 ms and yield a reported failure;
a failure followed by a success retries after the 200 ms backoff; and
after a completely failed delivery the gateway records a local failure
(`lastPostOk = false`, outcome reported undelivered) with the session
closed — a later Release of that key finds no open session and nothing
is re-queued or retried. -/
theorem relay_retry_budget_C3 :
    (∀ (mode : ReliabilityMode) (seq : Nat) (env : Nat → AttemptResult),
      (postEventToPlugin mode seq env).2.1 ≤ 3) ∧
    HTTP_TIMEOUT_MS = 1200 ∧
    (∀ (mode : ReliabilityMode) (seq : Nat) (env : Nat → AttemptResult),
      (∀ k, 1 ≤ k → k ≤ 3 → attemptSucceeds mode seq (env k) = false) →
      postEventToPlugin mode seq env = (false, 3, [200, 400, 800])) ∧
    (∀ (mode : ReliabilityMode) (seq : Nat) (env : Nat → AttemptResult),
      attemptSucceeds mode seq (env 1) = false →
      attemptSucceeds mode seq (env 2) = true →
      postEventToPlugin mode seq env = (true, 2, [200])) ∧
    (∀ (mode : ReliabilityMode) (env : Nat → AttemptResult) (now key : Nat)
        (st : GwState),
      key < 36 → st.isDown key = true →
      (∀ k, 1 ≤ k → k ≤ 3 →
        attemptSucceeds mode (st.seqCounter + 1) (env k) = false) →
      (gwStep mode env now 0 key st).1.lastPostOk = false ∧
      (∃ o : PressOutcome, (gwStep mode env now 0 key st).2 = some o ∧
        o.delivered = false) ∧
      (∀ (mode2 : ReliabilityMode) (env2 : Nat → AttemptResult) (now2 : Nat),
        gwStep mode2 env2 now2 0 key (gwStep mode env now 0 key st).1 =
          ((gwStep mode env now 0 key st).1, none))) := by
  refine ⟨relay_made_le_three, rfl,
    fun mode seq env hf => relay_all_fail mode seq env
      (hf 1 (by decide) (by decide)) (hf 2 (by decide) (by decide))
      (hf 3 (by decide) (by decide)),
    fun mode seq env h1 h2 => by simp [postEventToPlugin, relayGo, h1, h2],
    fun mode env now key st hk hdown hf => ?_⟩
  have hk36 : ¬ 36 ≤ key := Nat.not_le.mpr hk
  have hpost : postEventToPlugin mode (st.seqCounter + 1) env =
      (false, 3, [200, 400, 800]) :=
    relay_all_fail mode (st.seqCounter + 1) env
      (hf 1 (by decide) (by decide)) (hf 2 (by decide) (by decide))
      (hf 3 (by decide) (by decide))
  have hstep : gwStep mode env now 0 key st =
      ({ st with
          isDown := fun k => if k == key then false else st.isDown k,
          seqCounter := st.seqCounter + 1,
          lastSeqSent := st.seqCounter + 1,
          lastAckSeq := st.lastAckSeq,
          lastPostOk := false },
        some ⟨key, now - st.pressStart key,
          classifyIsLong (now - st.pressStart key),
          if classifyIsLong (now - st.pressStart key) then key + 36 else key,
          st.seqCounter + 1, false⟩) := by
    simp [gwStep, hk36, hdown, hpost]
  refine ⟨by rw [hstep], ⟨_, by rw [hstep], rfl⟩, fun mode2 env2 now2 => ?_⟩
  rw [hstep]
  simp [gwStep, hk36]

/-- C3 witness: every attempt is a transport failure; the relay makes
exactly 3 attempts with delays 200/400/800 ms, and the gateway's
release handling reports the local failure with the session closed and
nothing retried. -/
theorem relay_retry_budget_C3_witness :
    (postEventToPlugin .legacy 1 (fun _ => .transportFail)).2.1 ≤ 3 ∧
    postEventToPlugin .legacy 1 (fun _ => .transportFail) =
      (false, 3, [200, 400, 800]) ∧
    (gwStep .legacy (fun _ => .transportFail) 700 0 3
        ⟨fun _ => true, fun _ => 0, 0, 0, 0, true⟩).1.lastPostOk = false :=
  ⟨relay_retry_budget_C3.1 .legacy 1 (fun _ => .transportFail),
   relay_retry_budget_C3.2.2.1 .legacy 1 (fun _ => .transportFail)
     (fun _ _ _ => rfl),
   (relay_retry_budget_C3.2.2.2.2 .legacy (fun _ => .transportFail) 700 3
     ⟨fun _ => true, fun _ => 0, 0, 0, 0, true⟩ (by decide) rfl
     (fun _ _ _ => rfl)).1⟩

/-- C8: the press classifier ignores redundant transitions: a Press for
a key already down leaves the state unchanged and produces nothing, and
a Release for a key with no open session produces no outcome, no
sequence increment, and no relay attempt. -/
theorem classifier_redundant_noop_C8 :
    (∀ (mode : ReliabilityMode) (env : Nat → AttemptResult) (now key : Nat)
        (st : GwState), st.isDown key = true →
      gwStep mode env now 1 key st = (st, none)) ∧
    (∀ (mode : ReliabilityMode) (env : Nat → AttemptResult) (now key : Nat)
        (st : GwState), st.isDown key = false →
      gwStep mode env now 0 key st = (st, none)) := by
  constructor <;> intro mode env now key st h <;>
    by_cases hk : 36 ≤ key <;> simp [gwStep, hk, h]

/-- C8 witness: with key 3 down, a redundant Press is a no-op; with key
3 up, a Release is ignored. -/
theorem classifier_redundant_noop_C8_witness :
    gwStep .legacy (fun _ => .transportFail) 50 1 3
        ⟨fun _ => true, fun _ => 7, 4, 4, 4, true⟩ =
      (⟨fun _ => true, fun _ => 7, 4, 4, 4, true⟩, none) ∧
    gwStep .legacy (fun _ => .transportFail) 50 0 3
        ⟨fun _ => false, fun _ => 7, 4, 4, 4, true⟩ =
      (⟨fun _ => false, fun _ => 7, 4, 4, 4, true⟩, none) :=
  ⟨classifier_redundant_noop_C8.1 .legacy (fun _ => .transportFail) 50 3
      ⟨fun _ => true, fun _ => 7, 4, 4, 4, true⟩ rfl,
   classifier_redundant_noop_C8.2 .legacy (fun _ => .transportFail) 50 3
      ⟨fun _ => false, fun _ => 7, 4, 4, 4, true⟩ rfl⟩

/-- C7: with the default 30 s offline timeout, a device last seen at
`t0 > 0` and still marked connected is demoted by the first liveness
check that runs after `t0 + 30 s` (in particular one at `t0 + 31 s`),
and across that check and every later one exactly one
connectivity-changed notification is emitted, because the flag
transitions only on an actual state change. -/
theorem liveness_demotion_C7 :
    getOfflineTimeoutMs none = 30000 ∧
    (∀ (t0 : Nat) (ts : List Nat),
      0 < t0 → ts ≠ [] → (∀ t ∈ ts, t0 + 30000 < t) →
      runTicks (getOfflineTimeoutMs none) ⟨true, t0⟩ ts = (⟨false, t0⟩, 1)) := by
  refine ⟨rfl, fun t0 ts ht0 hne hall => ?_⟩
  cases ts with
  | nil => exact absurd rfl hne
  | cons t ts =>
    have h1 : t0 + 30000 < t := hall t (by simp)
    have ht0ne : t0 ≠ 0 := by omega
    have hgap : 30000 < t - t0 := by omega
    have hfirst : tickStatusTimer 30000 t ⟨true, t0⟩ = (⟨false, t0⟩, true) := by
      simp [tickStatusTimer, setDeviceConnected, hgap, ht0ne]
    show runTicks 30000 ⟨true, t0⟩ (t :: ts) = (⟨false, t0⟩, 1)
    rw [runTicks, hfirst]
    simp [runTicks_disconnected]

/-- C7 witness: last seen at `t0 = 1`, ticks at `t0 + 31 s` and
`t0 + 36 s`: demoted, exactly one notification. -/
theorem liveness_demotion_C7_witness :
    runTicks (getOfflineTimeoutMs none) ⟨true, 1⟩ [31001, 36001] =
      (⟨false, 1⟩, 1) :=
  liveness_demotion_C7.2 1 [31001, 36001] (by decide) (by decide) (by decide)
